import Mathlib

/-!
Shallow embedding of the password-reset wizard (src/src/pages/auth/ForgotPassword.jsx)
and of the client create/edit form (src/unnamed/part_000) of the scf-cms-web
repository, together with theorems settling the specification claims.

Modelling conventions:
* React `useState` fields of the `ForgotPassword` component become the fields of
  `WizardState`; each submit handler becomes a pure function from the current
  state, the submitted form data and the outcome of the awaited HTTP call to the
  next state (plus observable effects: how many HTTP requests were issued and how
  many `navigate` calls fired).
* The outcome of an `axiosInstance` call is either a JSON response carrying
  `success` and `message` fields, or a thrown transport error (the `catch` branch).
* The `handleSubmit(h)` wrapper of react-hook-form invokes `h` only when the yup resolver
  for the current step accepts the form values; the `submit...` functions model
  this gate in front of the corresponding handler.
* yup schema checks are embedded field test by field test; for the two checks
  whose semantics live in the yup library itself (string `.email()` and `.url()`)
  a simplified executable model of the library regex is used, documented at the
  definition.
-/

namespace SCF

/-! ## Wizard data model (ForgotPassword.jsx, lines 30-36) -/

/-- Step control of the wizard: `useState(1)` with 1 = email, 2 = otp,
3 = reset password (ForgotPassword.jsx line 31). -/
inductive Step where
  | Email
  | Otp
  | Reset
deriving DecidableEq

/-- The component state: `step`, `message`, `success`, `isLoading`, `email`
(ForgotPassword.jsx lines 31-35). -/
structure WizardState where
  step : Step
  message : String
  success : Bool
  isLoading : Bool
  email : String
deriving DecidableEq

/-- The state on mount: `useState(1)`, two `useState(false)`, and empty strings
for the message and the email. -/
def initWizard : WizardState :=
  { step := Step.Email, message := "", success := false, isLoading := false, email := "" }

/-- Outcome of an awaited `axiosInstance.post`: either a response whose body has
`success` and `message`, or a thrown transport error (network/5xx), which lands
in the `catch` branch. -/
inductive RemoteOutcome where
  | resp (success : Bool) (message : String)
  | thrown
deriving DecidableEq

/-! ## Validation schemas (ForgotPassword.jsx, lines 10-28) -/

/-- Splits a character list at every occurrence of `sep` (used to model the
structure of the library email regex). -/
def splitOnChar (sep : Char) : List Char → List (List Char)
  | [] => [[]]
  | c :: cs =>
    match splitOnChar sep cs with
    | [] => if c == sep then [[], []] else [[c]]
    | g :: gs => if c == sep then [] :: g :: gs else (c :: g) :: gs

/-- Characters admitted in an atom of the local part of an email address in the
model of the library regex (letters, digits, and common special characters). -/
def isLocalChar (c : Char) : Bool :=
  c.isAlpha || c.isDigit ||
    (['!', '#', '$', '%', '&', '*', '+', '-', '/', '=', '?', '^', '_', '~'].contains c)

/-- Characters admitted in a domain label: letters, digits, hyphen. -/
def isDomainChar (c : Char) : Bool :=
  c.isAlpha || c.isDigit || c == '-'

/-- A dot-separated sequence of nonempty atoms whose characters all satisfy `ok`. -/
def dotAtoms (ok : Char → Bool) (l : List Char) : Bool :=
  (splitOnChar '.' l).all fun atom => !atom.isEmpty && atom.all ok

/-- The domain: at least two dot-separated nonempty labels of domain characters,
the last of which (the top-level domain) is purely alphabetic. -/
def domainValid (l : List Char) : Bool :=
  let labels := splitOnChar '.' l
  decide (2 ≤ labels.length) &&
    labels.all (fun lab => !lab.isEmpty && lab.all isDomainChar) &&
    (match labels.getLast? with
     | some tld => tld.all Char.isAlpha
     | none => false)

/-- Modelled from library code: simplified executable form of the email regex
that the yup string `.email(...)` test applies
(ForgotPassword.jsx line 12). The repository only invokes the check; its regex
lives in the yup library. The model keeps its structure: a nonempty
dot-separated local part of admissible characters, one `@`, and a dot-separated
domain ending in an alphabetic top-level domain. -/
def emailValid (s : String) : Bool :=
  match splitOnChar '@' s.data with
  | [localPart, domainPart] => dotAtoms isLocalChar localPart && domainValid domainPart
  | _ => false

/-- `emailSchema` (ForgotPassword.jsx lines 11-13): the `email` field must pass
the `.email(...)` syntax test and the `.required(...)` test (which rejects the
empty string). -/
def emailSchemaValid (email : String) : Bool :=
  emailValid email && email != ""

/-- `otpSchema` (ForgotPassword.jsx lines 15-17): `yup.string().length(6, "OTP
must be 6 digits").required("OTP is required")` — the only structural checks are
string length exactly 6 and nonemptiness; no digit-only test is applied. -/
def otpSchemaValid (otp : String) : Bool :=
  (otp.length == 6) && (otp != "")

/-- The property the otp error message announces: exactly six characters, all
decimal digits. Stated separately from `otpSchemaValid` to compare the enforced
check with the announced one. -/
def isSixDigits (s : String) : Bool :=
  (s.length == 6) && s.data.all Char.isDigit

/-- `passwordSchema` (ForgotPassword.jsx lines 19-28): `newPassword` needs
`.min(6)` and `.required()`; `confirmNewPassword` needs
`.oneOf([yup.ref("newPassword"), null], "Passwords must match")` and
`.required()`. -/
def passwordSchemaValid (newPassword confirmNewPassword : String) : Bool :=
  (decide (6 ≤ newPassword.length) && (newPassword != "")) &&
    ((confirmNewPassword == newPassword) && (confirmNewPassword != ""))

/-! ## Submit handlers (ForgotPassword.jsx, lines 54-112) -/

/-- `handleEmailSubmit` (lines 54-71): sets loading, clears the message, POSTs
`/auth/forgot-password`, stores the response message and success flag, and on
`success` stores the submitted email and moves to the OTP step; a thrown error
yields the generic message; `finally` clears loading. -/
def handleEmailSubmit (s : WizardState) (dataEmail : String) (r : RemoteOutcome) :
    WizardState :=
  let s0 := { s with isLoading := true, message := "" }
  let s1 :=
    match r with
    | RemoteOutcome.resp succ msg =>
      let sr := { s0 with message := msg, success := succ }
      if succ then { sr with email := dataEmail, step := Step.Otp } else sr
    | RemoteOutcome.thrown =>
      { s0 with message := "Something went wrong. Please try again.", success := false }
  { s1 with isLoading := false }

/-- `handleOtpSubmit` (lines 73-89): POSTs `/auth/verify-otp` with the stored
email and the submitted otp, stores message and success, and on success moves to
the reset step. -/
def handleOtpSubmit (s : WizardState) (_dataOtp : String) (r : RemoteOutcome) :
    WizardState :=
  let s0 := { s with isLoading := true, message := "" }
  let s1 :=
    match r with
    | RemoteOutcome.resp succ msg =>
      let sr := { s0 with message := msg, success := succ }
      if succ then { sr with step := Step.Reset } else sr
    | RemoteOutcome.thrown =>
      { s0 with message := "Error verifying OTP. Please try again.", success := false }
  { s1 with isLoading := false }

/-- `handlePasswordReset` (lines 91-112): POSTs `/auth/reset-password`, stores
message and success, and on success sets the step back to 1 and calls
`navigate("/login")`. The second component counts the `navigate` calls fired. -/
def handlePasswordReset (s : WizardState) (_newPassword _confirmNewPassword : String)
    (r : RemoteOutcome) : WizardState × Nat :=
  let s0 := { s with isLoading := true, message := "" }
  match r with
  | RemoteOutcome.resp succ msg =>
    let sr := { s0 with message := msg, success := succ }
    if succ then ({ sr with step := Step.Email, isLoading := false }, 1)
    else ({ sr with isLoading := false }, 0)
  | RemoteOutcome.thrown =>
    let sr := { s0 with message := "Error resetting password. Please try again." }
    ({ sr with success := false, isLoading := false }, 0)

/-- Observable outcome of pressing a submit button: the next component state,
the number of HTTP requests issued, and the number of `navigate` calls fired. -/
structure SubmitOutcome where
  state : WizardState
  remoteCalls : Nat
  navs : Nat
deriving DecidableEq

/-- The email form submit: `handleSubmit(handleEmailSubmit)` with the
`yupResolver(emailSchema)` in force at step 1 (lines 44 and 152) — the handler,
and with it the HTTP request, runs only when the schema accepts the input. -/
def submitEmail (s : WizardState) (input : String) (r : RemoteOutcome) : SubmitOutcome :=
  if emailSchemaValid input then
    { state := handleEmailSubmit s input r, remoteCalls := 1, navs := 0 }
  else
    { state := s, remoteCalls := 0, navs := 0 }

/-- The otp form submit: `handleSubmit(handleOtpSubmit)` gated by
`yupResolver(otpSchema)` at step 2 (lines 44 and 191). -/
def submitOtp (s : WizardState) (input : String) (r : RemoteOutcome) : SubmitOutcome :=
  if otpSchemaValid input then
    { state := handleOtpSubmit s input r, remoteCalls := 1, navs := 0 }
  else
    { state := s, remoteCalls := 0, navs := 0 }

/-- The reset form submit: `handleSubmit(handlePasswordReset)` gated by
`yupResolver(passwordSchema)` at step 3 (lines 44 and 251). -/
def submitReset (s : WizardState) (newPassword confirmNewPassword : String)
    (r : RemoteOutcome) : SubmitOutcome :=
  if passwordSchemaValid newPassword confirmNewPassword then
    let p := handlePasswordReset s newPassword confirmNewPassword r
    { state := p.1, remoteCalls := 1, navs := p.2 }
  else
    { state := s, remoteCalls := 0, navs := 0 }

/-! ## Session-level transition system -/

/-- A user interaction with the wizard: submitting one of the three forms (with
the remote outcome the environment returns) or pressing the Back button of the
OTP step (line 232: `onClick={() => setStep(1)}`). -/
inductive Event where
  | emailSubmit (input : String) (r : RemoteOutcome)
  | otpSubmit (input : String) (r : RemoteOutcome)
  | resetSubmit (newPassword confirmNewPassword : String) (r : RemoteOutcome)
  | goBack

/-- One interaction step. Each form (and the Back button) is only rendered at
its own step (lines 151, 190, 229, 250), so an event addressed to a form that
is not on screen leaves the state unchanged. -/
def wizardEventStep (s : WizardState) (e : Event) : WizardState :=
  match e with
  | Event.emailSubmit input r =>
    if s.step = Step.Email then (submitEmail s input r).state else s
  | Event.otpSubmit input r =>
    if s.step = Step.Otp then (submitOtp s input r).state else s
  | Event.resetSubmit pw cf r =>
    if s.step = Step.Reset then (submitReset s pw cf r).state else s
  | Event.goBack =>
    if s.step = Step.Otp then { s with step := Step.Email } else s

/-- The state after a session that starts on mount and performs the given
interactions in order. -/
def runEvents (es : List Event) : WizardState :=
  es.foldl wizardEventStep initWizard

/-- A state is reachable when some session produces it. -/
def Reachable (s : WizardState) : Prop :=
  ∃ es : List Event, runEvents es = s

/-! ## Client form (src/unnamed/part_000) -/

/-- The part of a selected image file that the `clientSchema` image tests
inspect: its MIME `type` and its `size` in bytes (part_000 lines 33-42). -/
structure ImageFile where
  type : String
  size : Nat
deriving DecidableEq

/-- The fields of the `initialData` record the component reads: `name`,
`website`, `description`, `logo` (lines 61-64) and `id` (line 195). -/
structure ClientRecord where
  id : String
  name : String
  website : String
  description : String
  logo : Option String
deriving DecidableEq

/-- The `mode` prop: `"add"` or `"edit"`. -/
inductive Mode where
  | add
  | edit
deriving DecidableEq

/-- The form fields `handleSubmit` reads: `title`, `website`, `content` and the
selected `imageFile` (part_000 lines 48-51). -/
structure ClientFormState where
  title : String
  website : String
  content : String
  imageFile : Option ImageFile
deriving DecidableEq

/-- Drops the literal `pre` from the front of `l`, or fails when `l` does not
start with it. -/
def dropLit : List Char → List Char → Option (List Char)
  | [], l => some l
  | _ :: _, [] => none
  | p :: ps, c :: cs => if p == c then dropLit ps cs else none

/-- Modelled from library code: simplified executable form of the URL regex
that the yup string `.url(...)` test applies (part_000 line 16). The repository
only invokes the check; the regex lives in the yup library. The model keeps its
head structure: an `http`, `https` or `ftp` scheme, `://`, and a nonempty
remainder. -/
def urlValid (s : String) : Bool :=
  let l := s.data
  match dropLit "https://".data l with
  | some rest => !rest.isEmpty
  | none =>
    match dropLit "http://".data l with
    | some rest => !rest.isEmpty
    | none =>
      match dropLit "ftp://".data l with
      | some rest => !rest.isEmpty
      | none => false

/-- `clientSchema.title` (lines 8-11): `.required("Client name is required")`
then `.max(100, "Client name cannot exceed 100 characters")`. Returns the error
message set for the field, or `none` when the field validates. -/
def titleError (title : String) : Option String :=
  if title = "" then some "Client name is required"
  else if 100 < title.length then some "Client name cannot exceed 100 characters"
  else none

/-- `clientSchema.website` (lines 13-17): `.required(...)`, `.url(...)`,
`.max(255, ...)`. -/
def websiteError (website : String) : Option String :=
  if website = "" then some "Website URL is required"
  else if !urlValid website then some "Please enter a valid URL (e.g., https://example.com)"
  else if 255 < website.length then some "Website URL cannot exceed 255 characters"
  else none

/-- `clientSchema.content` (lines 19-23): `.required(...)`, `.min(10, ...)`,
`.max(1000, ...)`. -/
def contentError (content : String) : Option String :=
  if content = "" then some "Description is required"
  else if content.length < 10 then some "Description must be at least 10 characters"
  else if 1000 < content.length then some "Description cannot exceed 1000 characters"
  else none

/-- The MIME types the `fileFormat` test allows (part_000 line 33). -/
def allowedImageTypes : List String :=
  ["image/jpeg", "image/png", "image/gif", "image/webp"]

/-- `clientSchema.image` (lines 25-44): nullable; when a file is present its
type must be in `allowedImageTypes` (`fileFormat` test) and its size at most
`2 * 1024 * 1024` bytes (`fileSize` test); an absent file passes both tests. -/
def imageError : Option ImageFile → Option String
  | none => none
  | some f =>
    if !(allowedImageTypes.contains f.type) then
      some "Only JPG, PNG, GIF and WEBP images are allowed"
    else if 2 * 1024 * 1024 < f.size then some "Image size cannot exceed 2MB"
    else none

/-- `validateForm` (lines 131-165): validates title, website, content and image
against `clientSchema` and returns whether everything passed. -/
def validateForm (s : ClientFormState) : Bool :=
  (titleError s.title).isNone && (websiteError s.website).isNone &&
    (contentError s.content).isNone && (imageError s.imageFile).isNone

/-- The per-field error messages `validateForm` leaves in the `errors` state
when validation fails (lines 156-162). -/
structure FieldErrors where
  title : Option String
  website : Option String
  content : Option String
  image : Option String
deriving DecidableEq

/-- The `errors` map produced by validating every field of the form. -/
def validateFormErrors (s : ClientFormState) : FieldErrors :=
  { title := titleError s.title, website := websiteError s.website,
    content := contentError s.content, image := imageError s.imageFile }

/-- A value appended to the `FormData`: a text field or the selected file. -/
inductive FormValue where
  | text (s : String)
  | file (f : ImageFile)
deriving DecidableEq

/-- HTTP method of an issued request. -/
inductive Method where
  | post
  | put
deriving DecidableEq

/-- A multipart request issued by `handleSubmit`. -/
structure HttpRequest where
  method : Method
  url : String
  fields : List (String × FormValue)
deriving DecidableEq

/-- The `FormData` construction (lines 177-183): `name`, `website`,
`description` always; `logo` appended exactly when an image file is selected. -/
def formDataOf (s : ClientFormState) : List (String × FormValue) :=
  [("name", FormValue.text s.title), ("website", FormValue.text s.website),
    ("description", FormValue.text s.content)] ++
    (match s.imageFile with
     | some f => [("logo", FormValue.file f)]
     | none => [])

/-- `handleSubmit` (lines 167-216): validates the whole form and returns without
any request when validation fails; otherwise issues one POST to
`/client/create-client` in add mode, or one PUT to `/client/update-client/{id}`
in edit mode when an `initialData` record exists (edit mode without
`initialData` issues nothing). The result lists the HTTP requests issued. -/
def handleClientSubmit (mode : Mode) (initialData : Option ClientRecord)
    (s : ClientFormState) : List HttpRequest :=
  if !validateForm s then []
  else
    match mode, initialData with
    | Mode.add, _ =>
      [{ method := Method.post, url := "/client/create-client", fields := formDataOf s }]
    | Mode.edit, some r0 =>
      [{ method := Method.put, url := "/client/update-client/" ++ r0.id, fields := formDataOf s }]
    | Mode.edit, none => []

/-! ## Claim-level predicates -/

/-- The claimed WizardState invariant, exactly as stated: in every reachable
state the stored email is empty iff the step is Email, and once the email is
nonempty no further interaction ever changes it for the rest of the session. -/
def claimedEmailInvariant : Prop :=
  (∀ s : WizardState, Reachable s → (s.email = "" ↔ s.step = Step.Email)) ∧
    (∀ (s : WizardState) (e : Event), Reachable s → s.email ≠ "" →
      (wizardEventStep s e).email = s.email)

/-- The part of the email invariant that the code does maintain: away from the
Email step the stored email is nonempty. -/
def emailOk (s : WizardState) : Prop :=
  s.step ≠ Step.Email → s.email ≠ ""

/-! ## Helper lemmas -/

/-- An input accepted by the email schema is nonempty (the `.required` test). -/
theorem emailSchemaValid_ne_empty {input : String}
    (h : emailSchemaValid input = true) : input ≠ "" := by
  unfold emailSchemaValid at h
  simp only [Bool.and_eq_true] at h
  exact bne_iff_ne.mp h.2

/-- The password schema accepts exactly the pairs with a new password of length
at least 6 and an equal confirmation (the `.required` tests are subsumed: a
password of length ≥ 6 is nonempty, and so is a confirmation equal to it). -/
theorem passwordSchemaValid_iff (pw cf : String) :
    passwordSchemaValid pw cf = true ↔ (6 ≤ pw.length ∧ cf = pw) := by
  unfold passwordSchemaValid
  simp only [Bool.and_eq_true, decide_eq_true_eq, bne_iff_ne, beq_iff_eq]
  constructor
  · intro h
    exact ⟨h.1.1, h.2.1⟩
  · rintro ⟨h6, hcf⟩
    have hne : pw ≠ "" := by
      intro hempty
      rw [hempty] at h6
      exact absurd h6 (by decide)
    refine ⟨⟨h6, hne⟩, hcf, ?_⟩
    rw [hcf]
    exact hne

/-- Every single interaction step preserves `emailOk`. -/
theorem wizardEventStep_emailOk (s : WizardState) (e : Event) (h : emailOk s) :
    emailOk (wizardEventStep s e) := by
  unfold emailOk at h ⊢
  cases e with
  | emailSubmit input r =>
    by_cases hs : s.step = Step.Email
    · by_cases hv : emailSchemaValid input = true
      · cases r with
        | resp succ msg =>
          cases succ with
          | false => simp [wizardEventStep, hs, submitEmail, hv, handleEmailSubmit]
          | true =>
            simp [wizardEventStep, hs, submitEmail, hv, handleEmailSubmit]
            exact emailSchemaValid_ne_empty hv
        | thrown => simp [wizardEventStep, hs, submitEmail, hv, handleEmailSubmit]
      · rw [Bool.not_eq_true] at hv
        simp [wizardEventStep, hs, submitEmail, hv]
    · simpa [wizardEventStep, hs] using h
  | otpSubmit input r =>
    by_cases hs : s.step = Step.Otp
    · have hne : s.email ≠ "" := h (by rw [hs]; intro hcon; cases hcon)
      by_cases hv : otpSchemaValid input = true
      · cases r with
        | resp succ msg =>
          cases succ with
          | false => simpa [wizardEventStep, hs, submitOtp, hv, handleOtpSubmit] using hne
          | true => simpa [wizardEventStep, hs, submitOtp, hv, handleOtpSubmit] using hne
        | thrown => simpa [wizardEventStep, hs, submitOtp, hv, handleOtpSubmit] using hne
      · rw [Bool.not_eq_true] at hv
        simpa [wizardEventStep, hs, submitOtp, hv] using h
    · simpa [wizardEventStep, hs] using h
  | resetSubmit pw cf r =>
    by_cases hs : s.step = Step.Reset
    · have hne : s.email ≠ "" := h (by rw [hs]; intro hcon; cases hcon)
      by_cases hv : passwordSchemaValid pw cf = true
      · cases r with
        | resp succ msg =>
          cases succ with
          | false =>
            simpa [wizardEventStep, hs, submitReset, hv, handlePasswordReset] using hne
          | true => simp [wizardEventStep, hs, submitReset, hv, handlePasswordReset]
        | thrown =>
          simpa [wizardEventStep, hs, submitReset, hv, handlePasswordReset] using hne
      · rw [Bool.not_eq_true] at hv
        simpa [wizardEventStep, hs, submitReset, hv] using h
    · simpa [wizardEventStep, hs] using h
  | goBack =>
    by_cases hs : s.step = Step.Otp
    · simp [wizardEventStep, hs]
    · simpa [wizardEventStep, hs] using h

/-- Every reachable state satisfies `emailOk`. -/
theorem runEvents_emailOk (es : List Event) : emailOk (runEvents es) := by
  unfold runEvents
  have hgen : ∀ (l : List Event) (s : WizardState), emailOk s →
      emailOk (l.foldl wizardEventStep s) := by
    intro l
    induction l with
    | nil => exact fun s h => h
    | cons e t ih => exact fun s h => ih _ (wizardEventStep_emailOk s e h)
  refine hgen es initWizard ?_
  intro hcon
  exact absurd rfl hcon

/-! ## Claim theorems -/

/-- C1, counterexample: the claimed invariant fails on the code. After a
successful email submission of "a@b.com" followed by the Back button of the OTP
step, the session is back at the Email step while the stored email is still
"a@b.com", so the email is not empty at step Email. -/
theorem C1_counterexample_back_keeps_email : ¬ claimedEmailInvariant := by
  intro h
  have h1 := h.1
    (runEvents [Event.emailSubmit "a@b.com" (RemoteOutcome.resp true "sent"), Event.goBack])
    ⟨[Event.emailSubmit "a@b.com" (RemoteOutcome.resp true "sent"), Event.goBack], rfl⟩
  revert h1
  decide

/-- C1 (amended): on mount the email is empty and the step is Email; in every
reachable state whose step is not Email the stored email is nonempty. (The
original "empty iff step Email" fails because the Back button returns to the
Email step without clearing the stored email, and a later successful email
submission overwrites it.) -/
theorem C1_email_nonempty_beyond_email_step :
    initWizard.email = "" ∧ initWizard.step = Step.Email ∧
      ∀ s : WizardState, Reachable s → s.step ≠ Step.Email → s.email ≠ "" := by
  refine ⟨rfl, rfl, ?_⟩
  intro s hr
  obtain ⟨es, hes⟩ := hr
  subst hes
  exact runEvents_emailOk es

/-- C1, witness: the amended theorem applied to the state reached by one
successful email submission, which sits at the OTP step with a nonempty email. -/
theorem C1_email_nonempty_beyond_email_step_witness :
    (runEvents [Event.emailSubmit "a@b.com" (RemoteOutcome.resp true "ok")]).step ≠
        Step.Email ∧
      (runEvents [Event.emailSubmit "a@b.com" (RemoteOutcome.resp true "ok")]).email ≠ "" :=
  ⟨by decide,
    C1_email_nonempty_beyond_email_step.2.2 _
      ⟨[Event.emailSubmit "a@b.com" (RemoteOutcome.resp true "ok")], rfl⟩ (by decide)⟩

/-- C2: evaluation at the failing input "abcdef". The otp schema only checks
`length(6)`, so the six-letter non-digit string passes local validation and the
verify-otp request is issued, although the input is not six digits — contrary to
the claim (and to the error message of the schema itself, "OTP must be 6 digits"). -/
theorem C2_otp_schema_accepts_nondigits :
    otpSchemaValid "abcdef" = true ∧ isSixDigits "abcdef" = false ∧
      (submitOtp
        { step := Step.Otp, message := "", success := false, isLoading := false,
          email := "a@b.com" }
        "abcdef" (RemoteOutcome.resp false "Invalid OTP")).remoteCalls = 1 := by
  decide

/-- C3: from the Email step, when the input passes the email schema and the
request-otp call answers success=true, the submit stores the submitted email,
moves to the OTP step, and issued exactly one request. -/
theorem C3_email_success_advances :
    ∀ (s : WizardState) (input m : String),
      emailSchemaValid input = true → s.step = Step.Email →
      (submitEmail s input (RemoteOutcome.resp true m)).state.step = Step.Otp ∧
        (submitEmail s input (RemoteOutcome.resp true m)).state.email = input ∧
        (submitEmail s input (RemoteOutcome.resp true m)).remoteCalls = 1 := by
  intro s input m hv _hs
  refine ⟨?_, ?_, ?_⟩ <;> simp [submitEmail, hv, handleEmailSubmit]

/-- C3, witness: the theorem applied to the mount state and the accepted email
"a@b.com". -/
theorem C3_email_success_advances_witness :
    emailSchemaValid "a@b.com" = true ∧ initWizard.step = Step.Email ∧
      (submitEmail initWizard "a@b.com" (RemoteOutcome.resp true "OTP sent")).state.step =
          Step.Otp ∧
        (submitEmail initWizard "a@b.com" (RemoteOutcome.resp true "OTP sent")).state.email =
          "a@b.com" ∧
        (submitEmail initWizard "a@b.com" (RemoteOutcome.resp true "OTP sent")).remoteCalls = 1 :=
  ⟨by decide, rfl, C3_email_success_advances initWizard "a@b.com" "OTP sent" (by decide) rfl⟩

/-- C4: for each of the three submit handlers, a response with success=false and
message m leaves the step unchanged and stores m verbatim as the displayed
message. -/
theorem C4_failure_keeps_step_shows_message :
    ∀ (s : WizardState) (m e o pw cf : String),
      (handleEmailSubmit s e (RemoteOutcome.resp false m)).step = s.step ∧
        (handleEmailSubmit s e (RemoteOutcome.resp false m)).message = m ∧
        (handleOtpSubmit s o (RemoteOutcome.resp false m)).step = s.step ∧
        (handleOtpSubmit s o (RemoteOutcome.resp false m)).message = m ∧
        (handlePasswordReset s pw cf (RemoteOutcome.resp false m)).1.step = s.step ∧
        (handlePasswordReset s pw cf (RemoteOutcome.resp false m)).1.message = m := by
  intro s m e o pw cf
  refine ⟨?_, ?_, ?_, ?_, ?_, ?_⟩ <;>
    simp [handleEmailSubmit, handleOtpSubmit, handlePasswordReset]

/-- C5: an input rejected by the email schema never triggers the request-otp
call, and the state is untouched. -/
theorem C5_invalid_email_no_request :
    ∀ (s : WizardState) (input : String) (r : RemoteOutcome),
      emailSchemaValid input = false →
      (submitEmail s input r).remoteCalls = 0 ∧ (submitEmail s input r).state = s := by
  intro s input r hv
  constructor <;> simp [submitEmail, hv]

/-- C5, witness: the theorem applied to the rejected input "not-an-email". -/
theorem C5_invalid_email_no_request_witness :
    emailSchemaValid "not-an-email" = false ∧
      (submitEmail initWizard "not-an-email" RemoteOutcome.thrown).remoteCalls = 0 ∧
      (submitEmail initWizard "not-an-email" RemoteOutcome.thrown).state = initWizard :=
  ⟨by decide,
    C5_invalid_email_no_request initWizard "not-an-email" RemoteOutcome.thrown (by decide)⟩

/-- C6: the reset form issues its request exactly when the new password has at
least 6 characters and the confirmation equals it; any mismatch blocks the
request whatever the remote would answer. -/
theorem C6_reset_call_iff_valid :
    ∀ (s : WizardState) (pw cf : String) (r : RemoteOutcome),
      ((submitReset s pw cf r).remoteCalls = 1 ↔ (6 ≤ pw.length ∧ cf = pw)) ∧
        (cf ≠ pw → (submitReset s pw cf r).remoteCalls = 0) := by
  intro s pw cf r
  constructor
  · cases hv : passwordSchemaValid pw cf with
    | true =>
      simp only [submitReset, hv, if_true]
      simpa using (passwordSchemaValid_iff pw cf).mp hv
    | false =>
      simp only [submitReset, hv, Bool.false_eq_true, if_false]
      constructor
      · intro hcon
        exact absurd hcon (by decide)
      · intro hok
        exact absurd ((passwordSchemaValid_iff pw cf).mpr hok) (by simp [hv])
  · intro hne
    cases hv : passwordSchemaValid pw cf with
    | false => simp [submitReset, hv]
    | true => exact absurd ((passwordSchemaValid_iff pw cf).mp hv).2 hne

/-- C6, witness: a mismatching confirmation blocks the request. -/
theorem C6_reset_call_iff_valid_witness :
    ("secret2" : String) ≠ "secret1" ∧
      (submitReset initWizard "secret1" "secret2" RemoteOutcome.thrown).remoteCalls = 0 :=
  ⟨by decide,
    (C6_reset_call_iff_valid initWizard "secret1" "secret2" RemoteOutcome.thrown).2 (by decide)⟩

/-- C7: a successful reset-password response puts the wizard back at the Email
step and fires navigation exactly once; a rejected response, a thrown call, or a
submission blocked by validation fires no navigation, and no submit ever fires
it more than once. -/
theorem C7_reset_success_navigates_once :
    ∀ (s : WizardState) (pw cf m : String) (r : RemoteOutcome),
      (handlePasswordReset s pw cf (RemoteOutcome.resp true m)).1.step = Step.Email ∧
        (handlePasswordReset s pw cf (RemoteOutcome.resp true m)).2 = 1 ∧
        (handlePasswordReset s pw cf (RemoteOutcome.resp false m)).2 = 0 ∧
        (handlePasswordReset s pw cf RemoteOutcome.thrown).2 = 0 ∧
        (submitReset s pw cf r).navs ≤ 1 ∧
        (submitReset s pw cf (RemoteOutcome.resp false m)).navs = 0 ∧
        (submitReset s pw cf RemoteOutcome.thrown).navs = 0 := by
  intro s pw cf m r
  refine ⟨rfl, rfl, rfl, rfl, ?_, ?_, ?_⟩
  · cases hv : passwordSchemaValid pw cf with
    | false => simp [submitReset, hv]
    | true =>
      cases r with
      | resp succ msg => cases succ <;> simp [submitReset, hv, handlePasswordReset]
      | thrown => simp [submitReset, hv, handlePasswordReset]
  · cases hv : passwordSchemaValid pw cf <;> simp [submitReset, hv, handlePasswordReset]
  · cases hv : passwordSchemaValid pw cf <;> simp [submitReset, hv, handlePasswordReset]

/-- C8: a thrown transport error at any of the three submits is caught: the
step is unchanged, the step-specific generic retry message is stored, success is
false, and at most the one original request was issued (no retry). -/
theorem C8_transport_error_caught :
    ∀ (s : WizardState) (e o pw cf : String),
      (handleEmailSubmit s e RemoteOutcome.thrown).step = s.step ∧
        (handleEmailSubmit s e RemoteOutcome.thrown).message =
          "Something went wrong. Please try again." ∧
        (handleEmailSubmit s e RemoteOutcome.thrown).success = false ∧
        (handleOtpSubmit s o RemoteOutcome.thrown).step = s.step ∧
        (handleOtpSubmit s o RemoteOutcome.thrown).message =
          "Error verifying OTP. Please try again." ∧
        (handleOtpSubmit s o RemoteOutcome.thrown).success = false ∧
        (handlePasswordReset s pw cf RemoteOutcome.thrown).1.step = s.step ∧
        (handlePasswordReset s pw cf RemoteOutcome.thrown).1.message =
          "Error resetting password. Please try again." ∧
        (handlePasswordReset s pw cf RemoteOutcome.thrown).1.success = false ∧
        (submitEmail s e RemoteOutcome.thrown).remoteCalls ≤ 1 ∧
        (submitOtp s o RemoteOutcome.thrown).remoteCalls ≤ 1 ∧
        (submitReset s pw cf RemoteOutcome.thrown).remoteCalls ≤ 1 := by
  intro s e o pw cf
  refine ⟨rfl, rfl, rfl, rfl, rfl, rfl, rfl, rfl, rfl, ?_, ?_, ?_⟩
  · cases hv : emailSchemaValid e <;> simp [submitEmail, hv]
  · cases hv : otpSchemaValid o <;> simp [submitOtp, hv]
  · cases hv : passwordSchemaValid pw cf <;> simp [submitReset, hv]

/-! ## Client-form helper lemmas -/

/-- An empty or over-100-character title gets a title error. -/
theorem titleError_isSome_of_violation (t : String) (h : t = "" ∨ 100 < t.length) :
    (titleError t).isSome = true := by
  unfold titleError
  rcases h with h | h
  · simp [h]
  · by_cases h0 : t = ""
    · simp [h0]
    · simp [h0, h]

/-- A missing, non-URL, or over-255-character website gets a website error. -/
theorem websiteError_isSome_of_violation (w : String)
    (h : w = "" ∨ urlValid w = false ∨ 255 < w.length) :
    (websiteError w).isSome = true := by
  unfold websiteError
  by_cases h0 : w = ""
  · simp [h0]
  · rcases h with h | h | h
    · exact absurd h h0
    · simp [h0, h]
    · by_cases hu : urlValid w
      · simp [h0, hu, h]
      · rw [Bool.not_eq_true] at hu
        simp [h0, hu]

/-- A description shorter than 10 or longer than 1000 characters gets a
description error. -/
theorem contentError_isSome_of_violation (c : String)
    (h : c.length < 10 ∨ 1000 < c.length) :
    (contentError c).isSome = true := by
  unfold contentError
  by_cases h0 : c = ""
  · simp [h0]
  · rcases h with h | h
    · simp [h0, h]
    · have hten : ¬ c.length < 10 := by omega
      simp [h0, h, hten]

/-- A selected image of a disallowed MIME type or over 2*1024*1024 bytes gets an
image error. -/
theorem imageError_isSome_of_violation (f : ImageFile)
    (h : allowedImageTypes.contains f.type = false ∨ 2 * 1024 * 1024 < f.size) :
    (imageError (some f)).isSome = true := by
  unfold imageError
  rcases h with h | h
  · have hm : f.type ∉ allowedImageTypes := by simpa using h
    simp [hm]
  · by_cases hm : f.type ∈ allowedImageTypes
    · simp [hm, h]
    · simp [hm]

/-- The whole-form validation fails as soon as one field has an error. -/
theorem validateForm_false_of_errors (s : ClientFormState)
    (h : (titleError s.title).isSome = true ∨ (websiteError s.website).isSome = true ∨
      (contentError s.content).isSome = true ∨ (imageError s.imageFile).isSome = true) :
    validateForm s = false := by
  unfold validateForm
  rcases h with h | h | h | h
  · cases hx : titleError s.title with
    | none => rw [hx] at h; cases h
    | some v => simp [hx]
  · cases hx : websiteError s.website with
    | none => rw [hx] at h; cases h
    | some v => simp [hx]
  · cases hx : contentError s.content with
    | none => rw [hx] at h; cases h
    | some v => simp [hx]
  · cases hx : imageError s.imageFile with
    | none => rw [hx] at h; cases h
    | some v => simp [hx]

/-- C9: once the form validates, add mode issues exactly the one POST to
/client/create-client and edit mode (with an existing record) exactly the one
PUT to /client/update-client/{id}; both carry the multipart fields name,
website and description, and a logo field exactly when an image is selected. -/
theorem C9_valid_submit_one_request :
    ∀ (initialData : Option ClientRecord) (r0 : ClientRecord) (s : ClientFormState),
      validateForm s = true →
      handleClientSubmit Mode.add initialData s =
          [{ method := Method.post, url := "/client/create-client", fields := formDataOf s }] ∧
        handleClientSubmit Mode.edit (some r0) s =
          [{ method := Method.put, url := "/client/update-client/" ++ r0.id,
             fields := formDataOf s }] ∧
        ("name", FormValue.text s.title) ∈ formDataOf s ∧
        ("website", FormValue.text s.website) ∈ formDataOf s ∧
        ("description", FormValue.text s.content) ∈ formDataOf s ∧
        ((∃ v : FormValue, ("logo", v) ∈ formDataOf s) ↔ s.imageFile.isSome = true) := by
  intro initialData r0 s hv
  refine ⟨?_, ?_, ?_, ?_, ?_, ?_⟩
  · simp [handleClientSubmit, hv]
  · simp [handleClientSubmit, hv]
  · simp [formDataOf]
  · simp [formDataOf]
  · simp [formDataOf]
  · cases hf : s.imageFile with
    | none =>
      simp only [formDataOf, hf]
      constructor
      · rintro ⟨v, hmem⟩
        simp at hmem
      · intro hcon
        simp at hcon
    | some f =>
      constructor
      · intro _
        simp [hf]
      · intro _
        exact ⟨FormValue.file f, by simp [formDataOf, hf]⟩

/-- C9, witness: the theorem applied to a concrete valid form in add and edit
mode. -/
theorem C9_valid_submit_one_request_witness :
    validateForm
        { title := "Acme", website := "https://example.com",
          content := "A sufficiently long description", imageFile := none } = true ∧
      handleClientSubmit Mode.add none
          { title := "Acme", website := "https://example.com",
            content := "A sufficiently long description", imageFile := none } =
        [{ method := Method.post, url := "/client/create-client",
           fields := formDataOf
             { title := "Acme", website := "https://example.com",
               content := "A sufficiently long description", imageFile := none } }] :=
  ⟨by decide,
    (C9_valid_submit_one_request none
      { id := "42", name := "Old", website := "https://old.example.com",
        description := "previous description", logo := none }
      { title := "Acme", website := "https://example.com",
        content := "A sufficiently long description", imageFile := none } (by decide)).1⟩

/-- C10: any schema violation (empty or over-long title, missing/non-URL/too
long website, too short or too long description, or a selected image of a
disallowed type or size) blocks the HTTP request and sets the per-field error
message of every violated field; an absent image never blocks submission. -/
theorem C10_invalid_blocks_submission :
    (∀ (mode : Mode) (initialData : Option ClientRecord) (s : ClientFormState),
        ((s.title = "" ∨ 100 < s.title.length) ∨
          (s.website = "" ∨ urlValid s.website = false ∨ 255 < s.website.length) ∨
          (s.content.length < 10 ∨ 1000 < s.content.length) ∨
          (∃ f : ImageFile, s.imageFile = some f ∧
            (allowedImageTypes.contains f.type = false ∨ 2 * 1024 * 1024 < f.size))) →
        handleClientSubmit mode initialData s = [] ∧ validateForm s = false) ∧
      (∀ t : String, (t = "" ∨ 100 < t.length) → (titleError t).isSome = true) ∧
      (∀ w : String, (w = "" ∨ urlValid w = false ∨ 255 < w.length) →
        (websiteError w).isSome = true) ∧
      (∀ c : String, (c.length < 10 ∨ 1000 < c.length) → (contentError c).isSome = true) ∧
      (∀ f : ImageFile,
        (allowedImageTypes.contains f.type = false ∨ 2 * 1024 * 1024 < f.size) →
        (imageError (some f)).isSome = true) ∧
      imageError none = none := by
  refine ⟨?_, titleError_isSome_of_violation, websiteError_isSome_of_violation,
    contentError_isSome_of_violation, imageError_isSome_of_violation, rfl⟩
  intro mode initialData s hviol
  have herr : (titleError s.title).isSome = true ∨ (websiteError s.website).isSome = true ∨
      (contentError s.content).isSome = true ∨ (imageError s.imageFile).isSome = true := by
    rcases hviol with h | h | h | h
    · exact Or.inl (titleError_isSome_of_violation _ h)
    · exact Or.inr (Or.inl (websiteError_isSome_of_violation _ h))
    · exact Or.inr (Or.inr (Or.inl (contentError_isSome_of_violation _ h)))
    · rcases h with ⟨f, hf, hcond⟩
      refine Or.inr (Or.inr (Or.inr ?_))
      rw [hf]
      exact imageError_isSome_of_violation f hcond
  have hv := validateForm_false_of_errors s herr
  exact ⟨by simp [handleClientSubmit, hv], hv⟩

/-- C10, witness: an empty title blocks the submission of an otherwise valid
form. -/
theorem C10_invalid_blocks_submission_witness :
    (("" : String) = "" ∨ 100 < ("" : String).length) ∧
      handleClientSubmit Mode.add none
          { title := "", website := "https://example.com",
            content := "a sufficiently long text", imageFile := none } = [] ∧
        validateForm
          { title := "", website := "https://example.com",
            content := "a sufficiently long text", imageFile := none } = false :=
  ⟨Or.inl rfl,
    C10_invalid_blocks_submission.1 Mode.add none
      { title := "", website := "https://example.com",
        content := "a sufficiently long text", imageFile := none } (Or.inl (Or.inl rfl))⟩

end SCF
